import Mathlib

/-!
Verification of the scheduling / token core of the Lab Sheet Generator
cloud service (`src/app.py`, data model in `src/database.py`).

Embedding conventions:

* Wall-clock instants (`datetime.now()` values) are modelled as natural
  numbers: seconds since an epoch that falls on a Monday at 00:00:00.
  Hence `t / 86400` is the calendar date (`datetime.date()`) as a day
  index, and `t / 86400 % 7` is Python's `datetime.weekday()`
  (Monday = 0).  ISO date strings (`date().isoformat()`) are represented
  by the day index, which is in bijection with them; the JSON-encoded
  `skip_dates` list of ISO strings is therefore a `List Nat` of day
  indices.  Sub-second precision is dropped: no branch of the modelled
  code distinguishes instants closer than one second.
* `lab_time` stays a `String`; `schedule.lab_time.split(':')` followed by
  `int(...)` is modelled character-by-character (`splitOnChar`,
  `parseIntPy`) because the behaviour on `"HH:MM"` strings is what the
  code relies on.  Python's `int` raises on non-digit input (the scan
  loop catches the exception); the total model returns a default that is
  only relied upon under the `validLabTime` hypothesis, which carves out
  exactly the inputs on which model and code agree.
* The in-memory token dictionary `tokens` is an association list keyed by
  the token string; the random `secrets.token_urlsafe` value is supplied
  as an explicit argument where a token is issued.
* Database rows (Schedule, GenerationHistory) are structures; the two
  related rows a schedule dereferences (`schedule.module`,
  `schedule.user`) are inlined / reduced to what the core reads: the
  module's fields are inlined into `Schedule`, and of a `User` row only
  its primary key matters to the control flow, so the users table is a
  `List Nat` of ids.
* The code mixes `datetime.now()` and `datetime.utcnow()` (the latter
  for `last_generated_at` and history timestamps); the model reads the
  single injected clock `now` for both.
* External collaborators are oracles passed as booleans: `doc_ok` is
  whether `document_generator.generate` returns (rather than raises),
  `onedrive_ok` collapses `onedrive_manager.enabled` together with the
  upload's `result['success']`, and `email_ok` is the (discarded) return
  value of the confirmation-email send.  `email_manager.send_email` and
  `onedrive_manager.upload_file` catch their own exceptions and return
  failure values, so only the document generator can abort the handler.
-/

namespace LabSheet

/-- Seconds in one day. -/
def secondsPerDay : Nat := 86400

/-- Python `datetime.weekday()`: Monday = 0 .. Sunday = 6.  Instants are
plain `Nat` seconds since the Monday-00:00:00 epoch. -/
def weekday (t : Nat) : Nat := t / secondsPerDay % 7

/-- Python `datetime.date()` as a day index since the epoch. -/
def dateIndex (t : Nat) : Nat := t / secondsPerDay

/-- The instant on day `d` at `h`:`m`:00 (what
`dt.replace(hour=h, minute=m, second=0, microsecond=0)` produces on a
datetime lying inside day `d`). -/
def atTimeOfDay (d h m : Nat) : Nat := d * secondsPerDay + h * 3600 + m * 60

/-- Python `str.split(sep)` for a one-character separator, over the
character list of the string. -/
def splitOnChar (sep : Char) : List Char → List (List Char)
  | [] => [[]]
  | c :: cs =>
    let rest := splitOnChar sep cs
    if c = sep then [] :: rest
    else
      match rest with
      | [] => [[c]]
      | r :: rs => (c :: r) :: rs

/-- Digits to a natural number, most significant first. -/
def digitsToNat : List Char → Nat :=
  List.foldl (fun n c => n * 10 + (c.toNat - 48)) 0

/-- Python `int(s)` on a string of decimal digits; `none` models the
`ValueError` raised on anything else (signs and surrounding whitespace,
which Python would also accept, never occur in `"HH:MM"` fields). -/
def parseIntPy (cs : List Char) : Option Nat :=
  if cs ≠ [] ∧ cs.all (fun c => c.isDigit) then some (digitsToNat cs) else none

/-- Model of `lab_time_parts = schedule.lab_time.split(':')` followed by
`lab_hour = int(lab_time_parts[0])`, `lab_minute = int(lab_time_parts[1])`
(app.py lines 733-735).  Out-of-range indices / parse failures raise in
Python; the model defaults them to `0`, and theorems that depend on the
parse carry a `validLabTime` hypothesis restricting to the inputs where
the two agree. -/
def parseLabTime (s : String) : Nat × Nat :=
  let parts := splitOnChar ':' s.data
  ((parseIntPy (parts.getD 0 [])).getD 0, (parseIntPy (parts.getD 1 [])).getD 0)

/-- A `lab_time` string on which the Python code neither raises nor
builds an out-of-range time: the first two `':'`-separated parts are
digit strings denoting a valid hour and minute. -/
def validLabTime (s : String) : Bool :=
  let parts := splitOnChar ':' s.data
  match parseIntPy (parts.getD 0 []), parseIntPy (parts.getD 1 []) with
  | some h, some m => decide (h < 24) && decide (m < 60)
  | _, _ => false

/-- The fields of a `modules` row that the scheduling / generation core
reads (database.py `Module`), inlined into the owning schedule
(`schedule.module`). -/
structure Module where
  code : String
  name : String
  sheet_type : String
  template : String
deriving Repr, DecidableEq

/-- A `schedules` row (database.py `Schedule`), restricted to the fields
the scheduling core reads or writes. -/
structure Schedule where
  id : Nat
  user_id : Nat
  module : Module
  day_of_week : Nat
  lab_time : String
  generate_before_minutes : Nat
  current_practical_number : Nat
  auto_increment : Bool
  use_zero_padding : Bool
  status : String
  skip_dates : List Nat
  upload_to_onedrive : Bool
  send_confirmation : Bool
  last_email_sent : Option Nat
  last_generated_at : Option Nat
deriving Repr, DecidableEq

/-- Model of `calculate_next_generation_time` (app.py lines 726-751): next trigger
instant for a schedule, as an integer number of seconds (the subtraction
of the lead time may cross the epoch, hence `Int`). -/
def calculate_next_generation_time (now : Nat) (schedule : Schedule) : Int :=
  let current_day := weekday now
  let target_day := schedule.day_of_week
  let lab_hour := (parseLabTime schedule.lab_time).1
  let lab_minute := (parseLabTime schedule.lab_time).2
  let days_until_lab := (((target_day : Int) - (current_day : Int)) % 7).toNat
  let days_until_lab :=
    if days_until_lab = 0 then
      if now ≥ atTimeOfDay (dateIndex now) lab_hour lab_minute then 7 else 0
    else days_until_lab
  let next_lab := atTimeOfDay (dateIndex now + days_until_lab) lab_hour lab_minute
  (next_lab : Int) - (schedule.generate_before_minutes : Int) * 60

/-- Model of the cool-down test `if schedule.last_email_sent: ... if
(now - last_sent).total_seconds() < 3600: continue` (app.py lines
775-779).  A `None` column is falsy; the
difference of two datetimes may be negative, hence the `Int`
subtraction. -/
def cooldownActive (now : Nat) (s : Schedule) : Bool :=
  match s.last_email_sent with
  | some last => decide ((now : Int) - (last : Int) < 3600)
  | none => false

/-- The body of the scan loop of `check_and_send_emails` for one active
schedule (app.py lines 766-816).  Returns the number of action tokens
issued for the schedule (the `generate`/`skip` pair or nothing) together
with the schedule row after the pass.  `email_enabled` is
`email_manager.enabled`; `send_ok` is the return value of
`email_manager.send_generation_email`, which catches its own exceptions
and reports failure as `False`. -/
def check_schedule (now : Nat) (email_enabled send_ok : Bool) (s : Schedule) :
    Nat × Schedule :=
  let next_gen := calculate_next_generation_time now s
  let time_diff := next_gen - (now : Int)
  if 0 ≤ time_diff ∧ time_diff ≤ 300 then
    if cooldownActive now s then (0, s)
    else if dateIndex now ∈ s.skip_dates then (0, s)
    else if email_enabled && send_ok then (2, { s with last_email_sent := some now })
    else (2, s)
  else (0, s)

/-- Model of `check_and_send_emails` over the schedules table (app.py lines
754-826): only rows with `status == 'active'` are scanned; the others are
untouched.  Returns the total number of tokens issued and the table after
the pass. -/
def check_and_send_emails (now : Nat) (email_enabled send_ok : Bool) :
    List Schedule → Nat × List Schedule
  | [] => (0, [])
  | s :: rest =>
    let tail := check_and_send_emails now email_enabled send_ok rest
    if s.status = "active" then
      let head := check_schedule now email_enabled send_ok s
      (head.1 + tail.1, head.2 :: tail.2)
    else (tail.1, s :: tail.2)

/-- A value of the `tokens` dictionary (app.py lines 62, 100-110).  The
`created_at` / `expires_at` ISO strings are represented by the instants
they encode. -/
structure TokenData where
  user_id : Nat
  schedule_id : Nat
  action : String
  created_at : Nat
  expires_at : Nat
deriving Repr, DecidableEq

/-- The global `tokens` dictionary, keyed by the opaque token string. -/
abbrev TokenStore := List (String × TokenData)

/-- Model of `generate_token` (app.py lines 100-110); the fresh
`secrets.token_urlsafe(32)` value is passed in as `tok`. -/
def generate_token (store : TokenStore) (tok : String)
    (user_id schedule_id : Nat) (action : String) (now : Nat) : TokenStore :=
  (tok, { user_id := user_id, schedule_id := schedule_id, action := action,
          created_at := now, expires_at := now + 24 * 3600 }) :: store

/-- Model of `del tokens[token]`. -/
def removeToken (store : TokenStore) (tok : String) : TokenStore :=
  store.filter (fun p => p.1 ≠ tok)

/-- A `generation_history` row (database.py `GenerationHistory`),
restricted to the fields the generation handler writes. -/
structure GenerationHistory where
  user_id : Nat
  module_code : String
  practical_number : Nat
  filename : String
  generated_via : String
  onedrive_link : Option String
  email_sent : Bool
deriving Repr, DecidableEq

/-- The database state the core reads and writes: the primary keys of the
`users` table (only existence of the row steers the control flow), the
`schedules` table, and the append-only `generation_history` table. -/
structure DB where
  users : List Nat
  schedules : List Schedule
  histories : List GenerationHistory
deriving Repr, DecidableEq

/-- Combined mutable state: in-memory token dictionary plus database. -/
structure St where
  tokens : TokenStore
  db : DB
deriving Repr, DecidableEq

/-- Model of `db.query(Schedule).get(schedule_id)`. -/
def findSchedule (schedules : List Schedule) (sid : Nat) : Option Schedule :=
  schedules.find? (fun s => s.id == sid)

/-- Committing a mutated schedule row: every row with the primary key
`sid` becomes `s'` (there is exactly one in a well-formed table). -/
def updateSchedule (schedules : List Schedule) (sid : Nat) (s' : Schedule) :
    List Schedule :=
  schedules.map (fun s => if s.id == sid then s' else s)

/-- The HTTP responses the email-action and schedule endpoints render. -/
inductive HttpResult where
  /-- 400, `ERROR_PAGE` "Invalid or expired link": token not in the store. -/
  | invalidLink
  /-- 400, `ERROR_PAGE` "Link has expired". -/
  | linkExpired
  /-- 404: user/schedule row missing. -/
  | notFound
  /-- 500, `ERROR_PAGE`: an exception escaped to the handler's `except`. -/
  | serverError
  /-- 200, `SUCCESS_PAGE` with module name and displayed practical number. -/
  | generated (module_name : String) (practical : Nat)
  /-- 200, `SKIP_PAGE` with module name and practical number. -/
  | skipped (module_name : String) (practical : Nat)
  /-- 200, schedule update committed. -/
  | scheduleUpdated
deriving Repr, DecidableEq

/-- Model of `generate_from_email` (app.py lines 553-652), the `generate`-token
consume endpoint.  `doc_ok` tells whether `document_generator.generate`
returns a path (`false` models it raising, which the enclosing `except`
turns into a 500 before any mutation is committed and before the token is
deleted); `doc_filename` is the basename of that path.  `onedrive_ok`
collapses `schedule.upload_to_onedrive`-independent upload availability:
`onedrive_manager.enabled` together with the upload's
`result['success']`; `share_link` is the link it would return.
`_email_ok` is the confirmation-send result, which the handler never
reads. -/
def generate_from_email (now : Nat) (doc_ok onedrive_ok _email_ok : Bool)
    (doc_filename share_link : String) (st : St) (tok : String) :
    HttpResult × St :=
  match st.tokens.lookup tok with
  | none => (.invalidLink, st)
  | some d =>
    if now > d.expires_at then
      (.linkExpired, { st with tokens := removeToken st.tokens tok })
    else if d.user_id ∈ st.db.users then
      match findSchedule st.db.schedules d.schedule_id with
      | none => (.notFound, st)
      | some s =>
        if doc_ok = false then (.serverError, st)
        else
          let link : Option String :=
            if s.upload_to_onedrive && onedrive_ok then some share_link else none
          let hist : GenerationHistory :=
            { user_id := d.user_id, module_code := s.module.code,
              practical_number := s.current_practical_number,
              filename := doc_filename, generated_via := "email",
              onedrive_link := link, email_sent := s.send_confirmation }
          let s' : Schedule :=
            { s with
              current_practical_number :=
                if s.auto_increment then s.current_practical_number + 1
                else s.current_practical_number,
              last_generated_at := some now }
          (.generated s.module.name (s'.current_practical_number - 1),
           { tokens := removeToken st.tokens tok,
             db := { users := st.db.users,
                     schedules := updateSchedule st.db.schedules s.id s',
                     histories := st.db.histories ++ [hist] } })
    else (.notFound, st)

/-- Model of `skip_from_email` (app.py lines 655-709), the `skip`-token
consume endpoint. -/
def skip_from_email (now : Nat) (st : St) (tok : String) : HttpResult × St :=
  match st.tokens.lookup tok with
  | none => (.invalidLink, st)
  | some d =>
    if now > d.expires_at then
      (.linkExpired, { st with tokens := removeToken st.tokens tok })
    else
      match findSchedule st.db.schedules d.schedule_id with
      | none => (.notFound, st)
      | some s =>
        let today := dateIndex now
        let s' : Schedule :=
          if today ∈ s.skip_dates then s
          else { s with skip_dates := s.skip_dates ++ [today] }
        (.skipped s.module.name s.current_practical_number,
         { tokens := removeToken st.tokens tok,
           db := { st.db with
                   schedules := updateSchedule st.db.schedules s.id s' } })

/-- The JSON body of a `PUT /api/schedules/<id>` request, restricted to
the keys the handler copies (app.py lines 458-460); `none` models a key
absent from the payload. -/
structure ScheduleUpdate where
  day_of_week : Option Nat := none
  lab_time : Option String := none
  generate_before_minutes : Option Nat := none
  current_practical_number : Option Nat := none
  auto_increment : Option Bool := none
  use_zero_padding : Option Bool := none
  status : Option String := none
  upload_to_onedrive : Option Bool := none
  send_confirmation : Option Bool := none
deriving Repr, DecidableEq

/-- The `for key in [...]: if key in data: setattr(schedule, key,
data[key])` loop of the PUT branch of `update_delete_schedule`
(app.py lines 454-464). -/
def apply_schedule_update (s : Schedule) (data : ScheduleUpdate) : Schedule :=
  { s with
    day_of_week := data.day_of_week.getD s.day_of_week,
    lab_time := data.lab_time.getD s.lab_time,
    generate_before_minutes :=
      data.generate_before_minutes.getD s.generate_before_minutes,
    current_practical_number :=
      data.current_practical_number.getD s.current_practical_number,
    auto_increment := data.auto_increment.getD s.auto_increment,
    use_zero_padding := data.use_zero_padding.getD s.use_zero_padding,
    status := data.status.getD s.status,
    upload_to_onedrive := data.upload_to_onedrive.getD s.upload_to_onedrive,
    send_confirmation := data.send_confirmation.getD s.send_confirmation }

/-- The PUT branch of `update_delete_schedule` (app.py lines 439-470):
look the schedule up by primary key and owner, apply the payload, and
commit. -/
def update_schedule (st : St) (schedule_id user_id : Nat)
    (data : ScheduleUpdate) : HttpResult × St :=
  match st.db.schedules.find?
      (fun s => s.id == schedule_id && s.user_id == user_id) with
  | none => (.notFound, st)
  | some s =>
    let s' := apply_schedule_update s data
    (.scheduleUpdated,
     { st with db := { st.db with
                       schedules := updateSchedule st.db.schedules s.id s' } })

/-! Concrete fixtures used by counterexamples and witnesses: the schedule
of the spec's scenarios (`dayOfWeek=2` i.e. Wednesday, `labTime="14:00"`,
`generateBeforeMinutes=60`).  With the Monday epoch, Wednesday of week 0
is day index 2: Wednesday 12:57 is instant 219420, 13:01 is 219660,
13:30 is 221400, 14:01 is 223260; Wednesday 13:00 is 219600 and the
following Wednesday 13:00 is 824400. -/

/-- A module row for the fixtures. -/
def mod0 : Module :=
  { code := "IT1010", name := "Programming", sheet_type := "Practical",
    template := "classic" }

/-- The scenario schedule. -/
def sched0 : Schedule :=
  { id := 1, user_id := 1, module := mod0, day_of_week := 2,
    lab_time := "14:00", generate_before_minutes := 60,
    current_practical_number := 1, auto_increment := true,
    use_zero_padding := true, status := "active", skip_dates := [],
    upload_to_onedrive := true, send_confirmation := true,
    last_email_sent := none, last_generated_at := none }

/-- A `generate` token bound to `sched0`'s user and schedule, issued at
the epoch (24 h TTL). -/
def tok0 : TokenData :=
  { user_id := 1, schedule_id := 1, action := "generate",
    created_at := 0, expires_at := 86400 }

/-- A `skip` token bound to the same user and schedule, same issuance. -/
def tokS : TokenData :=
  { user_id := 1, schedule_id := 1, action := "skip",
    created_at := 0, expires_at := 86400 }

/-- A state holding one `generate` token for `sched0`. -/
def st0 : St :=
  { tokens := [("tkn", tok0)],
    db := { users := [1], schedules := [sched0], histories := [] } }

/-- A state holding two `skip` tokens for `sched0` (two firings of the
scanner, or a re-rendered email). -/
def stS : St :=
  { tokens := [("sk1", tokS), ("sk2", tokS)],
    db := { users := [1], schedules := [sched0], histories := [] } }

/-- A state holding a `generate` token and a `skip` token that agree on
everything but their `action` field. -/
def stGS : St :=
  { tokens := [("gen", tok0), ("skp", tokS)],
    db := { users := [1], schedules := [sched0], histories := [] } }

/-! ## Claims C1 and C6: the recurrence calculator -/

/-- C1 is FALSE as stated: for the spec's own scenario schedule
(`dayOfWeek=2`, `labTime="14:00"`, `generateBeforeMinutes=60`, a valid
lab time and a day of week in 0-6) at `now` = Wednesday 13:30 of week 0
(instant 221400), `calculate_next_generation_time` returns Wednesday
13:00 (instant 219600), a past instant. -/
theorem nextTrigger_can_be_past :
    sched0.day_of_week ≤ 6 ∧ validLabTime sched0.lab_time = true ∧
    calculate_next_generation_time 221400 sched0 < (221400 : Int) := by
  decide

/-- C1 (amended): for every `now`, every schedule with `dayOfWeek` in 0-6
and a valid `"HH:MM"` lab time, the lab instant underlying the trigger is
never past — `nextTrigger + leadMinutes·60 > now`; the claimed
`nextTrigger ≥ now` itself holds whenever `leadMinutes = 0`. -/
theorem nextTrigger_lab_instant_never_past (now : Nat) (s : Schedule)
    (_hday : s.day_of_week ≤ 6) (_hvalid : validLabTime s.lab_time = true) :
    (now : Int) < calculate_next_generation_time now s
        + (s.generate_before_minutes : Int) * 60
      ∧ (s.generate_before_minutes = 0 →
          (now : Int) ≤ calculate_next_generation_time now s) := by
  have key : (now : Int) < calculate_next_generation_time now s
      + (s.generate_before_minutes : Int) * 60 := by
    unfold calculate_next_generation_time
    dsimp only [atTimeOfDay, dateIndex, weekday, secondsPerDay]
    generalize (((s.day_of_week : Int) - ((now / 86400 % 7 : Nat) : Int)) % 7).toNat = e
    split_ifs with h1 h2 <;> omega
  refine ⟨key, fun h0 => ?_⟩
  rw [h0] at key
  omega

/-- Witness for the amended C1 at the scenario schedule and
`now` = Wednesday 13:30. -/
theorem nextTrigger_lab_instant_never_past_witness :
    sched0.day_of_week ≤ 6 ∧ validLabTime sched0.lab_time = true ∧
    ((221400 : Int) < calculate_next_generation_time 221400 sched0
        + (sched0.generate_before_minutes : Int) * 60
      ∧ (sched0.generate_before_minutes = 0 →
          (221400 : Int) ≤ calculate_next_generation_time 221400 sched0)) :=
  ⟨by decide, by decide,
   nextTrigger_lab_instant_never_past 221400 sched0 (by decide) (by decide)⟩

/-- C6: when `daysUntil = (dayOfWeek − now.weekday()) mod 7` is `0` and
`now` is at or past today's lab instant (today at `labTime`, seconds
zeroed), `daysUntil` rolls to 7 and the trigger is computed from the lab
instant one week later. -/
theorem rollover_to_next_week (now : Nat) (s : Schedule) (h m : Nat)
    (hparse : parseLabTime s.lab_time = (h, m))
    (hdays : (((s.day_of_week : Int) - ((weekday now : Nat) : Int)) % 7).toNat = 0)
    (hpast : now ≥ atTimeOfDay (dateIndex now) h m) :
    calculate_next_generation_time now s =
      ((atTimeOfDay (dateIndex now + 7) h m : Nat) : Int)
        - (s.generate_before_minutes : Int) * 60 := by
  unfold calculate_next_generation_time
  rw [hparse]
  dsimp only
  rw [hdays]
  simp [hpast]

/-- C5: with no cool-down in effect and today not a skip date, an active
schedule with a valid lab time fires (both tokens are issued) in a scan
at `now` exactly when `delta = trigger − now` satisfies
`0 ≤ delta ≤ 300`, both ends included. -/
theorem firing_window_iff (now : Nat) (en ok : Bool) (s : Schedule)
    (_hstatus : s.status = "active") (_hvalid : validLabTime s.lab_time = true)
    (hcool : s.last_email_sent = none)
    (hskip : dateIndex now ∉ s.skip_dates) :
    (check_schedule now en ok s).1 = 2 ↔
      (0 ≤ calculate_next_generation_time now s - (now : Int) ∧
       calculate_next_generation_time now s - (now : Int) ≤ 300) := by
  have hca : cooldownActive now s = false := by
    unfold cooldownActive
    rw [hcool]
  by_cases hw : (0 ≤ calculate_next_generation_time now s - (now : Int) ∧
      calculate_next_generation_time now s - (now : Int) ≤ 300)
  · simp only [check_schedule, if_pos hw, hca, Bool.false_eq_true, if_false,
      if_neg hskip]
    constructor
    · intro _; exact hw
    · intro _
      cases en <;> cases ok <;> simp
  · simp only [check_schedule, if_neg hw]
    constructor
    · intro h; exact absurd h (by simp)
    · intro h; exact absurd h hw

/-- Witness for C5: the spec's scenario schedule at Wednesday 12:57
(instant 219420, `delta = 180 s`) fires; at Wednesday 13:01 (instant
219660, `delta = −60 s`) it does not. -/
theorem firing_window_iff_witness :
    (check_schedule 219420 true true sched0).1 = 2 ∧
    (check_schedule 219660 true true sched0).1 = 0 :=
  ⟨(firing_window_iff 219420 true true sched0 (by decide) (by decide) rfl
      (by decide)).mpr (by decide),
   by decide⟩

/-- C7: the cool-down and delivery contract of the scan — a schedule with
`lastEmailSent` set less than 3600 s before `now` is skipped untouched;
`lastEmailSent` moves only when the notifier is enabled and reports
success, in which case a firing sets it to `now`; on failure it is left
unchanged. -/
theorem cooldown_and_delivery (now : Nat) (en ok : Bool) (s : Schedule) :
    (∀ t, s.last_email_sent = some t → (now : Int) - (t : Int) < 3600 →
        check_schedule now en ok s = (0, s)) ∧
    (¬(en = true ∧ ok = true) →
        (check_schedule now en ok s).2.last_email_sent = s.last_email_sent) ∧
    ((check_schedule now en ok s).1 = 2 → en = true → ok = true →
        (check_schedule now en ok s).2.last_email_sent = some now) := by
  refine ⟨?_, ?_, ?_⟩
  · intro t ht hlt
    have hca : cooldownActive now s = true := by
      unfold cooldownActive
      rw [ht]
      simpa using hlt
    unfold check_schedule
    rw [hca]
    split_ifs <;> simp_all
  · intro hne
    by_cases hw : (0 ≤ calculate_next_generation_time now s - (now : Int) ∧
        calculate_next_generation_time now s - (now : Int) ≤ 300)
    · simp only [check_schedule, if_pos hw]
      split_ifs with h1 h2 h3 <;> simp_all
    · simp only [check_schedule, if_neg hw]
  · intro hfire hen hok
    subst hen; subst hok
    by_cases hw : (0 ≤ calculate_next_generation_time now s - (now : Int) ∧
        calculate_next_generation_time now s - (now : Int) ≤ 300)
    · simp only [check_schedule, if_pos hw] at hfire ⊢
      split_ifs at hfire ⊢ <;> simp_all
    · simp only [check_schedule, if_neg hw] at hfire
      simp at hfire

/-- Witness for C7: with `lastEmailSent` 420 s before `now`, the scenario
schedule is skipped unchanged. -/
theorem cooldown_and_delivery_witness :
    ({ sched0 with last_email_sent := some 219000 } :
        Schedule).last_email_sent = some 219000 ∧
    (219420 : Int) - (219000 : Int) < 3600 ∧
    check_schedule 219420 true true { sched0 with last_email_sent := some 219000 } =
      (0, { sched0 with last_email_sent := some 219000 }) :=
  ⟨rfl, by decide,
   (cooldown_and_delivery 219420 true true
      { sched0 with last_email_sent := some 219000 }).1 219000 rfl (by decide)⟩

/-- C8: if today's date is among a schedule's skip dates, the scan issues
no token for it and leaves the row — in particular its cool-down state
`lastEmailSent` — unchanged, whatever the trigger-window computation
says. -/
theorem skip_date_suppression (now : Nat) (en ok : Bool) (s : Schedule)
    (_hstatus : s.status = "active")
    (hskip : dateIndex now ∈ s.skip_dates) :
    check_schedule now en ok s = (0, s) := by
  unfold check_schedule
  split_ifs <;> simp_all

/-- Witness for C8: the scenario schedule with today (day index 2) in its
skip dates, scanned at Wednesday 12:57 — an instant inside the firing
window, at which it would otherwise fire. -/
theorem skip_date_suppression_witness :
    dateIndex 219420 ∈ ({ sched0 with skip_dates := [2] } : Schedule).skip_dates ∧
    check_schedule 219420 true true { sched0 with skip_dates := [2] } =
      (0, { sched0 with skip_dates := [2] }) :=
  ⟨by decide,
   skip_date_suppression 219420 true true { sched0 with skip_dates := [2] }
     (by decide) (by decide)⟩

/-- Witness for C6 at the spec's scenario: `now` = Wednesday 14:01
(instant 223260, one minute past lab start) gives the following
Wednesday 13:00 (instant 824400). -/
theorem rollover_to_next_week_witness :
    parseLabTime sched0.lab_time = (14, 0) ∧
    (((sched0.day_of_week : Int) - ((weekday 223260 : Nat) : Int)) % 7).toNat = 0 ∧
    223260 ≥ atTimeOfDay (dateIndex 223260) 14 0 ∧
    calculate_next_generation_time 223260 sched0 = 824400 :=
  ⟨by decide, by decide, by decide,
   (rollover_to_next_week 223260 sched0 14 0 (by decide) (by decide)
     (by decide)).trans (by decide)⟩

/-! ## Token store and consume-endpoint lemmas -/

/-- Deleting a token removes it: a later lookup misses. -/
theorem lookup_removeToken (store : TokenStore) (tok : String) :
    (removeToken store tok).lookup tok = none := by
  induction store with
  | nil => rfl
  | cons p rest ih =>
    obtain ⟨k, v⟩ := p
    unfold removeToken at ih ⊢
    rw [List.filter_cons]
    by_cases h : k = tok
    · have hd : (decide (((k, v) : String × TokenData).1 ≠ tok)) = false := by
        simp [h]
      rw [hd]
      simpa using ih
    · have hd : (decide (((k, v) : String × TokenData).1 ≠ tok)) = true := by
        simp [h]
      rw [hd, if_pos rfl]
      have hb : (tok == k) = false := by
        simp [Ne.symm h]
      simp only [List.lookup, hb]
      exact ih

/-- A schedule found by primary key carries that key. -/
theorem findSchedule_id {l : List Schedule} {sid : Nat} {s : Schedule}
    (h : findSchedule l sid = some s) : s.id = sid := by
  have h' : l.find? (fun x => x.id == sid) = some s := h
  have := List.find?_some h'
  simpa using this

/-- After committing a replacement row under a primary key, a lookup of
that key sees the replacement. -/
theorem findSchedule_updateSchedule (l : List Schedule) (sid : Nat)
    (s s' : Schedule) (hfind : findSchedule l sid = some s)
    (hid : s'.id = s.id) :
    findSchedule (updateSchedule l sid s') sid = some s' := by
  have hsid : (s'.id == sid) = true := by
    simp [hid, findSchedule_id hfind]
  induction l with
  | nil => exact absurd hfind (by simp [findSchedule])
  | cons a rest ih =>
    by_cases h : (a.id == sid) = true
    · unfold updateSchedule findSchedule
      rw [List.map_cons, if_pos h]
      exact List.find?_cons_of_pos _ hsid
    · have hrest : findSchedule rest sid = some s := by
        unfold findSchedule at hfind
        rwa [List.find?_cons_of_neg _ (by simpa using h)] at hfind
      unfold updateSchedule findSchedule
      rw [List.map_cons, if_neg h]
      rw [List.find?_cons_of_neg _ (by simpa using h)]
      exact ih hrest

/-- In a table with unique primary keys, the row `find?` returns is the
only row with that key. -/
theorem findSchedule_unique {l : List Schedule} {sid : Nat} {s : Schedule}
    (hfind : findSchedule l sid = some s)
    (hnodup : (l.map (fun x => x.id)).Nodup) :
    ∀ x ∈ l, x.id = sid → x = s := by
  induction l with
  | nil => intro x hx; exact absurd hx (List.not_mem_nil x)
  | cons a rest ih =>
    rw [List.map_cons] at hnodup
    have hnd := List.nodup_cons.mp hnodup
    intro x hx hxid
    rcases List.mem_cons.mp hx with hxa | hxr
    · subst hxa
      have : findSchedule (x :: rest) sid = some x := by
        unfold findSchedule
        exact List.find?_cons_of_pos _ (by simpa using hxid)
      rw [hfind] at this
      exact (Option.some_inj.mp this).symm
    · by_cases h : (a.id == sid) = true
      · exfalso
        have ha : a.id = sid := by simpa using h
        exact hnd.1 (by
          rw [ha, ← hxid]
          exact List.mem_map_of_mem (fun y => y.id) hxr)
      · have hrest : findSchedule rest sid = some s := by
          unfold findSchedule at hfind
          rwa [List.find?_cons_of_neg _ (by simpa using h)] at hfind
        exact ih hrest hnd.2 x hxr hxid

/-- Committing a row that keeps the counter of the row it replaces leaves
the table's counter column unchanged (primary keys assumed unique, as in
any well-formed table). -/
theorem cpn_map_updateSchedule {l : List Schedule} {sid : Nat}
    {s : Schedule} (s' : Schedule) (hfind : findSchedule l sid = some s)
    (hnodup : (l.map (fun x => x.id)).Nodup)
    (hcpn : s'.current_practical_number = s.current_practical_number) :
    (updateSchedule l sid s').map (fun x => x.current_practical_number) =
      l.map (fun x => x.current_practical_number) := by
  unfold updateSchedule
  rw [List.map_map]
  apply List.map_congr_left
  intro x hx
  by_cases h : (x.id == sid) = true
  · have hxs : x = s :=
      findSchedule_unique hfind hnodup x hx (by simpa using h)
    subst hxs
    simp [Function.comp, h, hcpn]
  · simp [Function.comp, h]

/-- A token absent from the store is rejected as an invalid link by the
`generate` endpoint, with no state change. -/
theorem generate_invalid_of_absent (now : Nat) (dOk oOk eOk : Bool)
    (fn link tok : String) (st : St)
    (h : st.tokens.lookup tok = none) :
    generate_from_email now dOk oOk eOk fn link st tok = (.invalidLink, st) := by
  unfold generate_from_email
  rw [h]

/-- A token absent from the store is rejected as an invalid link by the
`skip` endpoint, with no state change. -/
theorem skip_invalid_of_absent (now : Nat) (tok : String) (st : St)
    (h : st.tokens.lookup tok = none) :
    skip_from_email now st tok = (.invalidLink, st) := by
  unfold skip_from_email
  rw [h]

/-- The success path of the `generate` consume endpoint, in closed form:
token present and unexpired, user and schedule rows present, document
generation succeeds. -/
theorem generate_from_email_success (now : Nat) (oOk eOk : Bool)
    (fn link tok : String) (st : St) (d : TokenData) (s : Schedule)
    (h1 : st.tokens.lookup tok = some d)
    (h2 : ¬ now > d.expires_at)
    (h3 : d.user_id ∈ st.db.users)
    (h4 : findSchedule st.db.schedules d.schedule_id = some s) :
    generate_from_email now true oOk eOk fn link st tok =
      (.generated s.module.name
         ((if s.auto_increment then s.current_practical_number + 1
           else s.current_practical_number) - 1),
       { tokens := removeToken st.tokens tok,
         db := { users := st.db.users,
                 schedules := updateSchedule st.db.schedules s.id
                   { s with
                     current_practical_number :=
                       if s.auto_increment then s.current_practical_number + 1
                       else s.current_practical_number,
                     last_generated_at := some now },
                 histories := st.db.histories ++
                   [{ user_id := d.user_id, module_code := s.module.code,
                      practical_number := s.current_practical_number,
                      filename := fn, generated_via := "email",
                      onedrive_link :=
                        if s.upload_to_onedrive && oOk then some link else none,
                      email_sent := s.send_confirmation }] } }) := by
  unfold generate_from_email
  rw [h1]
  simp [h2, h3, h4]

/-- The success path of the `skip` consume endpoint, in closed form:
token present and unexpired, schedule row present. -/
theorem skip_from_email_success (now : Nat) (tok : String) (st : St)
    (d : TokenData) (s : Schedule)
    (h1 : st.tokens.lookup tok = some d)
    (h2 : ¬ now > d.expires_at)
    (h3 : findSchedule st.db.schedules d.schedule_id = some s) :
    skip_from_email now st tok =
      (.skipped s.module.name s.current_practical_number,
       { tokens := removeToken st.tokens tok,
         db := { st.db with
                 schedules := updateSchedule st.db.schedules s.id
                   (if dateIndex now ∈ s.skip_dates then s
                    else { s with
                           skip_dates := s.skip_dates ++ [dateIndex now] }) } }) := by
  unfold skip_from_email
  rw [h1]
  simp [h2, h3]

/-! ## Claims C2, C4, C9, C10: the token lifecycle -/

/-- C2 is FALSE as stated: a stored, unexpired `generate` token whose
subsequent document generation raises is NOT deleted — the handler's
`except` returns a 500 with the state untouched, and a second consume of
the same token is not rejected as an invalid link (here it even
succeeds). -/
theorem token_survives_generation_failure :
    (st0.tokens.lookup "tkn").isSome = true ∧
    ¬ (100 : Nat) > tok0.expires_at ∧
    (generate_from_email 100 false true true "a.docx" "l" st0 "tkn").2 = st0 ∧
    (generate_from_email 100 true true true "a.docx" "l"
        (generate_from_email 100 false true true "a.docx" "l" st0 "tkn").2
        "tkn").1 ≠ HttpResult.invalidLink := by
  decide

/-- C2 (amended): an absent token signals invalid-link on both consume
endpoints; an expired token is deleted and signals expiry; an unexpired
token whose referenced rows exist and whose document generation succeeds
(for `generate`; for `skip`, whose schedule exists) is deleted whatever
the upload and email outcomes, so any second consume signals
invalid-link.  When the user/schedule lookup fails or document generation
raises, the token is not deleted and remains consumable. -/
theorem consume_exactly_once (now : Nat) (dOk oOk eOk : Bool)
    (fn link tok : String) (st : St) :
    (st.tokens.lookup tok = none →
        generate_from_email now dOk oOk eOk fn link st tok = (.invalidLink, st) ∧
        skip_from_email now st tok = (.invalidLink, st)) ∧
    (∀ d, st.tokens.lookup tok = some d → now > d.expires_at →
        (generate_from_email now dOk oOk eOk fn link st tok).1 = .linkExpired ∧
        (generate_from_email now dOk oOk eOk fn link st tok).2.tokens.lookup tok
          = none) ∧
    (∀ d s, st.tokens.lookup tok = some d → ¬ now > d.expires_at →
        d.user_id ∈ st.db.users →
        findSchedule st.db.schedules d.schedule_id = some s →
        dOk = true →
        (generate_from_email now dOk oOk eOk fn link st tok).2.tokens.lookup tok
            = none ∧
        ∀ now2 d2 o2 e2 f2 l2,
          (generate_from_email now2 d2 o2 e2 f2 l2
              (generate_from_email now dOk oOk eOk fn link st tok).2 tok).1
            = .invalidLink) ∧
    (∀ d s, st.tokens.lookup tok = some d → ¬ now > d.expires_at →
        findSchedule st.db.schedules d.schedule_id = some s →
        (skip_from_email now st tok).2.tokens.lookup tok = none ∧
        ∀ now2,
          (skip_from_email now2 (skip_from_email now st tok).2 tok).1
            = .invalidLink) := by
  refine ⟨?_, ?_, ?_, ?_⟩
  · intro h
    exact ⟨generate_invalid_of_absent now dOk oOk eOk fn link tok st h,
           skip_invalid_of_absent now tok st h⟩
  · intro d hd hexp
    have : generate_from_email now dOk oOk eOk fn link st tok =
        (.linkExpired, { st with tokens := removeToken st.tokens tok }) := by
      unfold generate_from_email
      rw [hd]
      simp [hexp]
    rw [this]
    exact ⟨rfl, lookup_removeToken _ _⟩
  · intro d s hd hexp hus hfs hdOk
    subst hdOk
    have hstate : (generate_from_email now true oOk eOk fn link st tok).2.tokens
        = removeToken st.tokens tok := by
      rw [generate_from_email_success now oOk eOk fn link tok st d s hd hexp hus hfs]
    have habs : (generate_from_email now true oOk eOk fn link st tok).2.tokens.lookup
        tok = none := by
      rw [hstate]
      exact lookup_removeToken _ _
    refine ⟨habs, ?_⟩
    intro now2 d2 o2 e2 f2 l2
    rw [generate_invalid_of_absent now2 d2 o2 e2 f2 l2 tok _ habs]
  · intro d s hd hexp hfs
    have hstate : (skip_from_email now st tok).2.tokens
        = removeToken st.tokens tok := by
      rw [skip_from_email_success now tok st d s hd hexp hfs]
    have habs : (skip_from_email now st tok).2.tokens.lookup tok = none := by
      rw [hstate]
      exact lookup_removeToken _ _
    refine ⟨habs, ?_⟩
    intro now2
    rw [skip_invalid_of_absent now2 tok _ habs]

/-- Witness for the amended C2: consuming the stored unexpired token of
`st0` with successful generation deletes it, and a second consume is
rejected as an invalid link. -/
theorem consume_exactly_once_witness :
    (generate_from_email 100 true true true "a.docx" "l" st0 "tkn").2.tokens.lookup
        "tkn" = none ∧
    (generate_from_email 200 true true true "a.docx" "l"
        (generate_from_email 100 true true true "a.docx" "l" st0 "tkn").2
        "tkn").1 = HttpResult.invalidLink := by
  have h := (consume_exactly_once 100 true true true "a.docx" "l" "tkn" st0).2.2.1
    tok0 sched0 rfl (by decide) (by decide) rfl rfl
  exact ⟨h.1, h.2 200 true true true "a.docx" "l"⟩

/-- C4: successfully consuming a `generate` token advances the bound
schedule's counter by exactly 1 when `autoIncrement` is true and leaves
it unchanged otherwise, stamps `lastGeneratedAt = now`, and appends
exactly one `GenerationHistory` record. -/
theorem generate_consume_advances_counter (now : Nat) (oOk eOk : Bool)
    (fn link tok : String) (st : St) (d : TokenData) (s : Schedule)
    (h1 : st.tokens.lookup tok = some d)
    (h2 : ¬ now > d.expires_at)
    (h3 : d.user_id ∈ st.db.users)
    (h4 : findSchedule st.db.schedules d.schedule_id = some s) :
    findSchedule
        (generate_from_email now true oOk eOk fn link st tok).2.db.schedules
        d.schedule_id =
      some { s with
             current_practical_number :=
               if s.auto_increment then s.current_practical_number + 1
               else s.current_practical_number,
             last_generated_at := some now } ∧
    (generate_from_email now true oOk eOk fn link st tok).2.db.histories =
      st.db.histories ++
        [{ user_id := d.user_id, module_code := s.module.code,
           practical_number := s.current_practical_number,
           filename := fn, generated_via := "email",
           onedrive_link :=
             if s.upload_to_onedrive && oOk then some link else none,
           email_sent := s.send_confirmation }] := by
  rw [generate_from_email_success now oOk eOk fn link tok st d s h1 h2 h3 h4]
  have hsid : s.id = d.schedule_id := findSchedule_id h4
  constructor
  · rw [← hsid]
    exact findSchedule_updateSchedule st.db.schedules s.id s _ (by rwa [hsid]) rfl
  · rfl

/-- Witness for C4 on `st0`: the counter goes from 1 to 2,
`lastGeneratedAt` is stamped, one history row appears. -/
theorem generate_consume_advances_counter_witness :
    findSchedule
        (generate_from_email 100 true true true "a.docx" "l" st0 "tkn").2.db.schedules
        tok0.schedule_id =
      some { sched0 with
             current_practical_number :=
               if sched0.auto_increment then sched0.current_practical_number + 1
               else sched0.current_practical_number,
             last_generated_at := some 100 } ∧
    (generate_from_email 100 true true true "a.docx" "l" st0 "tkn").2.db.histories =
      st0.db.histories ++
        [{ user_id := tok0.user_id, module_code := sched0.module.code,
           practical_number := sched0.current_practical_number,
           filename := "a.docx", generated_via := "email",
           onedrive_link :=
             if sched0.upload_to_onedrive && true then some "l" else none,
           email_sent := sched0.send_confirmation }] :=
  generate_consume_advances_counter 100 true true "a.docx" "l" "tkn" st0 tok0
    sched0 rfl (by decide) (by decide) rfl

/-- C9: consuming a `skip` token adds today to the schedule's skip dates
when absent and leaves the set unchanged when already present; either
way today is in the resulting set, the schedule's counter is untouched,
and the consumed token is deleted. -/
theorem skip_consume_idempotent (now : Nat) (tok : String) (st : St)
    (d : TokenData) (s : Schedule)
    (h1 : st.tokens.lookup tok = some d)
    (h2 : ¬ now > d.expires_at)
    (h3 : findSchedule st.db.schedules d.schedule_id = some s) :
    findSchedule (skip_from_email now st tok).2.db.schedules d.schedule_id =
      some (if dateIndex now ∈ s.skip_dates then s
            else { s with skip_dates := s.skip_dates ++ [dateIndex now] }) ∧
    dateIndex now ∈
      (if dateIndex now ∈ s.skip_dates then s
       else { s with skip_dates := s.skip_dates ++ [dateIndex now] }).skip_dates ∧
    (if dateIndex now ∈ s.skip_dates then s
     else { s with
            skip_dates := s.skip_dates ++ [dateIndex now] }).current_practical_number
      = s.current_practical_number ∧
    (skip_from_email now st tok).2.tokens.lookup tok = none := by
  rw [skip_from_email_success now tok st d s h1 h2 h3]
  have hsid : s.id = d.schedule_id := findSchedule_id h3
  refine ⟨?_, ?_, ?_, ?_⟩
  · rw [← hsid]
    exact findSchedule_updateSchedule st.db.schedules s.id s _ (by rwa [hsid])
      (by split_ifs <;> rfl)
  · split_ifs with hmem
    · exact hmem
    · simp
  · split_ifs <;> rfl
  · exact lookup_removeToken _ _

/-- Witness for C9 on `stS`: the first skip consume records day 0 and
deletes its token; a second skip consume the same day leaves every
schedule's skip-date set unchanged while deleting its own token. -/
theorem skip_consume_idempotent_witness :
    (findSchedule (skip_from_email 100 stS "sk1").2.db.schedules
        tokS.schedule_id =
      some (if dateIndex 100 ∈ sched0.skip_dates then sched0
            else { sched0 with
                   skip_dates := sched0.skip_dates ++ [dateIndex 100] }) ∧
     dateIndex 100 ∈
       (if dateIndex 100 ∈ sched0.skip_dates then sched0
        else { sched0 with
               skip_dates := sched0.skip_dates ++ [dateIndex 100] }).skip_dates ∧
     (if dateIndex 100 ∈ sched0.skip_dates then sched0
      else { sched0 with
             skip_dates :=
               sched0.skip_dates ++ [dateIndex 100] }).current_practical_number
       = sched0.current_practical_number ∧
     (skip_from_email 100 stS "sk1").2.tokens.lookup "sk1" = none) ∧
    (skip_from_email 100 (skip_from_email 100 stS "sk1").2 "sk2").2.db.schedules.map
        (fun x => x.skip_dates) =
      (skip_from_email 100 stS "sk1").2.db.schedules.map (fun x => x.skip_dates) ∧
    (skip_from_email 100 (skip_from_email 100 stS "sk1").2 "sk2").2.tokens = [] :=
  ⟨skip_consume_idempotent 100 "sk1" stS tokS sched0 rfl (by decide) rfl,
   by decide, by decide⟩

/-- C10: neither consume endpoint reads a token's `action` field — two
stored unexpired tokens that agree on user, schedule and timestamps but
differ in `action` produce identical responses and identical database
effects on the `generate` endpoint, and likewise on the `skip`
endpoint. -/
theorem consume_ignores_action (now : Nat) (dOk oOk eOk : Bool)
    (fn link : String) (st : St) (t1 t2 : String) (d1 d2 : TokenData)
    (h1 : st.tokens.lookup t1 = some d1)
    (h2 : st.tokens.lookup t2 = some d2)
    (hu : d1.user_id = d2.user_id) (hs : d1.schedule_id = d2.schedule_id)
    (_hc : d1.created_at = d2.created_at) (he : d1.expires_at = d2.expires_at)
    (hunexp : ¬ now > d1.expires_at) :
    ((generate_from_email now dOk oOk eOk fn link st t1).1 =
        (generate_from_email now dOk oOk eOk fn link st t2).1 ∧
     (generate_from_email now dOk oOk eOk fn link st t1).2.db =
        (generate_from_email now dOk oOk eOk fn link st t2).2.db) ∧
    ((skip_from_email now st t1).1 = (skip_from_email now st t2).1 ∧
     (skip_from_email now st t1).2.db = (skip_from_email now st t2).2.db) ∧
    (∀ s, d1.user_id ∈ st.db.users →
        findSchedule st.db.schedules d1.schedule_id = some s →
        (generate_from_email now true oOk eOk fn link st t1).1 =
          .generated s.module.name
            ((if s.auto_increment then s.current_practical_number + 1
              else s.current_practical_number) - 1)) ∧
    (∀ s, findSchedule st.db.schedules d1.schedule_id = some s →
        (skip_from_email now st t1).1 =
          .skipped s.module.name s.current_practical_number) := by
  refine ⟨?_, ?_, ?_, ?_⟩
  rotate_right 2
  · intro s hus hfs
    rw [generate_from_email_success now oOk eOk fn link t1 st d1 s h1 hunexp
      hus hfs]
  · intro s hfs
    rw [skip_from_email_success now t1 st d1 s h1 hunexp hfs]
  · unfold generate_from_email
    simp only [h1, h2]
    rw [← hu, ← hs, ← he]
    by_cases hexp : now > d1.expires_at
    · simp [hexp]
    · simp only [if_neg hexp]
      by_cases hus : d1.user_id ∈ st.db.users
      · simp only [if_pos hus]
        cases hfs : findSchedule st.db.schedules d1.schedule_id with
        | none => simp
        | some s =>
          by_cases hdOk : dOk = false
          · simp [hdOk]
          · simp [hdOk]
      · simp [hus]
  · unfold skip_from_email
    simp only [h1, h2]
    rw [← hs, ← he]
    by_cases hexp : now > d1.expires_at
    · simp [hexp]
    · simp only [if_neg hexp]
      cases hfs : findSchedule st.db.schedules d1.schedule_id with
      | none => simp
      | some s => simp

/-- C3 is FALSE as stated: the schedule-update endpoint directly writes
`currentPracticalNumber` whenever the request payload contains that key —
a PUT with `current_practical_number = 5` on a schedule whose counter is
1 commits 5, with no token consumed. -/
theorem update_endpoint_sets_counter :
    sched0.current_practical_number = 1 ∧
    (update_schedule st0 1 1
        { current_practical_number := some 5 }).2.db.schedules.map
      (fun x => x.current_practical_number) = [5] := by
  decide

/-- The scan never writes the counter column of a schedule row. -/
theorem check_schedule_preserves_counter (now : Nat) (en ok : Bool)
    (s : Schedule) :
    (check_schedule now en ok s).2.current_practical_number =
      s.current_practical_number := by
  simp only [check_schedule]
  split_ifs <;> rfl

/-- C3 (amended): `currentPracticalNumber` changes only through
generate-token consumption and through the schedule-update endpoint when
the payload contains the `current_practical_number` key; an update
payload without that key leaves it unchanged, and neither the scan nor
skip-token consumption ever modifies any schedule's counter. -/
theorem counter_changes_only_via_generate_or_update (now : Nat) (en ok : Bool)
    (s : Schedule) (data : ScheduleUpdate) (st : St) (tok : String)
    (ss : List Schedule)
    (hnodup : (st.db.schedules.map (fun x => x.id)).Nodup) :
    (data.current_practical_number = none →
        (apply_schedule_update s data).current_practical_number =
          s.current_practical_number) ∧
    (∀ k, data.current_practical_number = some k →
        (apply_schedule_update s data).current_practical_number = k) ∧
    ((check_schedule now en ok s).2.current_practical_number =
        s.current_practical_number) ∧
    ((check_and_send_emails now en ok ss).2.map
        (fun x => x.current_practical_number) =
      ss.map (fun x => x.current_practical_number)) ∧
    ((skip_from_email now st tok).2.db.schedules.map
        (fun x => x.current_practical_number) =
      st.db.schedules.map (fun x => x.current_practical_number)) := by
  refine ⟨?_, ?_, ?_, ?_, ?_⟩
  · intro h
    unfold apply_schedule_update
    rw [h]
    rfl
  · intro k h
    unfold apply_schedule_update
    rw [h]
    rfl
  · exact check_schedule_preserves_counter now en ok s
  · induction ss with
    | nil => rfl
    | cons a rest ih =>
      by_cases h : a.status = "active"
      · simp only [check_and_send_emails, if_pos h, List.map_cons, ih,
          check_schedule_preserves_counter]
      · simp only [check_and_send_emails, if_neg h, List.map_cons, ih]
  · unfold skip_from_email
    cases h1 : st.tokens.lookup tok with
    | none => rfl
    | some d =>
      dsimp only
      by_cases h2 : now > d.expires_at
      · simp [h2]
      · simp only [if_neg h2]
        cases h3 : findSchedule st.db.schedules d.schedule_id with
        | none => rfl
        | some s2 =>
          dsimp only
          have hsid : s2.id = d.schedule_id := findSchedule_id h3
          exact cpn_map_updateSchedule _ (by rwa [hsid]) hnodup
            (by split_ifs <;> rfl)

/-- Witness for the amended C3 at `st0`: an empty update payload, a scan,
and a skip consume all leave the counter column alone, while an explicit
payload value overwrites it. -/
theorem counter_changes_only_via_generate_or_update_witness :
    ((({ } : ScheduleUpdate)).current_practical_number = none →
        (apply_schedule_update sched0 { }).current_practical_number =
          sched0.current_practical_number) ∧
    (∀ k, (({ } : ScheduleUpdate)).current_practical_number = some k →
        (apply_schedule_update sched0 { }).current_practical_number = k) ∧
    ((check_schedule 100 true true sched0).2.current_practical_number =
        sched0.current_practical_number) ∧
    ((check_and_send_emails 100 true true [sched0]).2.map
        (fun x => x.current_practical_number) =
      [sched0].map (fun x => x.current_practical_number)) ∧
    ((skip_from_email 100 st0 "tkn").2.db.schedules.map
        (fun x => x.current_practical_number) =
      st0.db.schedules.map (fun x => x.current_practical_number)) :=
  counter_changes_only_via_generate_or_update 100 true true sched0 { } st0
    "tkn" [sched0] (by decide)

/-- Witness for C10 on `stGS`: the `generate` and the `skip` token of the
same firing behave identically on both endpoints. -/
theorem consume_ignores_action_witness :
    ((generate_from_email 100 true true true "a.docx" "l" stGS "gen").1 =
        (generate_from_email 100 true true true "a.docx" "l" stGS "skp").1 ∧
     (generate_from_email 100 true true true "a.docx" "l" stGS "gen").2.db =
        (generate_from_email 100 true true true "a.docx" "l" stGS "skp").2.db) ∧
    ((skip_from_email 100 stGS "gen").1 = (skip_from_email 100 stGS "skp").1 ∧
     (skip_from_email 100 stGS "gen").2.db =
        (skip_from_email 100 stGS "skp").2.db) := by
  have h := consume_ignores_action 100 true true true "a.docx" "l" stGS "gen"
    "skp" tok0 tokS rfl rfl rfl rfl rfl rfl (by decide)
  exact ⟨h.1, h.2.1⟩

end LabSheet
